import Mathlib

/-!
Shallow embedding of the tweet acquisition and forwarding pipeline of
src/main.py, a Telegram bot that watches one Twitter account and relays
posts to a channel, together with theorems settling the spec claims.

The Python source is single-threaded cooperative async code; every
function embedded here is pure, with the environment (API responses,
file reads, construction outcomes) passed in explicitly and the outbound
Telegram calls returned as a list of `SendCall` values.
-/

/-- Media type tag of an attachment, kept as the raw string used by the
Twitter API payload (`photo`, `video`, `animated_gif`), since the source
compares it with string equality. -/
structure MediaItem where
  mtype : String
  url : String
deriving DecidableEq, Repr

/-- A tweet as seen by src/main.py: `tweet.data` carries `id` and `text`,
`isReply` models the membership test for the `referenced_tweets` key in
`tweet.data`, and `includes_media` models `tweet.includes` with a `media`
key (`none` when `tweet.includes` is falsy or lacks the key). -/
structure Tweet where
  id : String
  text : String
  isReply : Bool
  includes_media : Option (List MediaItem)
deriving DecidableEq, Repr

/-- One outbound Telegram API call. The source only ever issues
`send_message` and `send_photo`; `sendMediaGroup` is the grouped-media
capability of the channel interface, included so that claims about
grouped sends are statable (the code never constructs it). Each media
group entry is a URL paired with an optional caption. -/
inductive SendCall where
  | sendMessage (chat_id : String) (text : String) (parse_mode : String)
  | sendPhoto (chat_id : String) (photo : String) (caption : String) (parse_mode : String)
  | sendMediaGroup (chat_id : String) (media : List (String × Option String))
deriving DecidableEq, Repr

/-- True exactly for a plain text send. -/
def SendCall.isTextSend : SendCall → Bool
  | .sendMessage _ _ _ => true
  | _ => false

/-- True exactly for a grouped-media send. -/
def SendCall.isMediaGroup : SendCall → Bool
  | .sendMediaGroup _ _ => true
  | _ => false

/-- Number of media attachments carried by one call. -/
def SendCall.attachmentCount : SendCall → Nat
  | .sendMessage _ _ _ => 0
  | .sendPhoto _ _ _ _ => 1
  | .sendMediaGroup _ ms => ms.length

/-- Poll interval of the watch loop, seconds (src/main.py line 26). -/
def POLL_INTERVAL : Nat := 1200

/-- Embeds `extract_media` (src/main.py lines 85 to 96): if
`tweet.includes` is falsy or has no `media` key, return the empty list;
otherwise walk the media list in order, appending the `url` of every
entry whose `type` equals `photo`. -/
def extract_media (tweet : Tweet) : List String :=
  match tweet.includes_media with
  | none => []
  | some ms => ms.foldl (fun acc m => if m.mtype = "photo" then acc ++ [m.url] else acc) []

/-- Embeds the f-string URL `https://twitter.com/{twitter_username}/status/{tweet_id}`
built in `send_tweet_to_telegram` (line 133). The monitored user name is
configuration, passed explicitly. -/
def tweet_url (username : String) (t : Tweet) : String :=
  "https://twitter.com/" ++ username ++ "/status/" ++ t.id

/-- Embeds the f-string `formatted_text` of `send_tweet_to_telegram`
(line 134): the tweet text, a blank line, and an HTML anchor to the
source post. -/
def formatted_text (username : String) (t : Tweet) : String :=
  t.text ++ "\n\n<a href=\x27" ++ tweet_url username t ++ "\x27>View on X</a>"

/-- The anchor part of the formatted text, as the spec calls it
(`link_to_source`): everything after the blank line. -/
def link_to_source (username : String) (t : Tweet) : String :=
  "<a href=\x27" ++ tweet_url username t ++ "\x27>View on X</a>"

/-- Embeds `send_tweet_to_telegram` (src/main.py lines 129 to 141): build
the formatted text, extract photo URLs; with no URLs send one text
message, otherwise send one photo message carrying `media_urls[0]` and
the formatted text as caption. Both calls use `parse_mode="HTML"`. -/
def send_tweet_to_telegram (username channel : String) (t : Tweet) : List SendCall :=
  let media_urls := extract_media t
  match media_urls with
  | [] => [SendCall.sendMessage channel (formatted_text username t) "HTML"]
  | u :: _ => [SendCall.sendPhoto channel u (formatted_text username t) "HTML"]

/-- One fetch attempt of the watch loop: either the recent-tweets list
(newest first, possibly empty, modelling a falsy `response.data` by `[]`)
or a `tweepy.errors.TooManyRequests` exception. -/
inductive FetchResult where
  | ok (tweets : List Tweet)
  | rateLimited
deriving DecidableEq, Repr

/-- Embeds the for-loop body of `fetch_and_forward_tweets` (lines 163 to
170): skip tweets whose data has a `referenced_tweets` key, forward the
first one that does not, and break. Returns the Telegram calls issued. -/
def forward_loop (username channel : String) : List Tweet → List SendCall
  | [] => []
  | t :: ts =>
    if t.isReply then forward_loop username channel ts
    else send_tweet_to_telegram username channel t

/-- Same loop, instrumented to return the tweets handed to
`send_tweet_to_telegram` instead of the calls it issues. -/
def render_calls : List Tweet → List Tweet
  | [] => []
  | t :: ts => if t.isReply then render_calls ts else [t]

/-- Telegram calls issued by one iteration of the watch loop, given the
fetch outcome of that iteration. On `TooManyRequests` the except branch
only sleeps and logs. -/
def iteration_sends (username channel : String) : FetchResult → List SendCall
  | .ok ts => forward_loop username channel ts
  | .rateLimited => []

/-- Seconds slept by one iteration: the except branch sleeps
`POLL_INTERVAL` (line 174) and the loop tail always sleeps
`POLL_INTERVAL` again (line 176). -/
def iteration_sleep : FetchResult → Nat
  | .ok _ => POLL_INTERVAL
  | .rateLimited => POLL_INTERVAL + POLL_INTERVAL

/-- Telegram calls issued across a continuously-enabled watch session,
one `FetchResult` per loop iteration. -/
def watch_sends (username channel : String) : List FetchResult → List SendCall
  | [] => []
  | r :: rs => iteration_sends username channel r ++ watch_sends username channel rs

/-- Identifiers of the tweets handed to `send_tweet_to_telegram` across a
continuously-enabled watch session. -/
def watch_render_ids : List FetchResult → List String
  | [] => []
  | .ok ts :: rs => (render_calls ts).map Tweet.id ++ watch_render_ids rs
  | .rateLimited :: rs => watch_render_ids rs

/-- Identifier selected by one iteration, the spec-side characterization:
the first tweet of the response whose reply flag is false. -/
def selected_id : FetchResult → Option String
  | .ok ts => (ts.find? fun t => !t.isReply).map Tweet.id
  | .rateLimited => none

/-- Unfolding lemma: with no extracted photo URLs the renderer issues one
text message. -/
theorem send_tweet_of_no_media (username channel : String) (t : Tweet)
    (h : extract_media t = []) :
    send_tweet_to_telegram username channel t
      = [SendCall.sendMessage channel (formatted_text username t) "HTML"] := by
  simp only [send_tweet_to_telegram, h]

/-- Unfolding lemma: with at least one extracted photo URL the renderer
issues one photo message carrying only the first URL. -/
theorem send_tweet_of_media (username channel : String) (t : Tweet)
    (u : String) (us : List String) (h : extract_media t = u :: us) :
    send_tweet_to_telegram username channel t
      = [SendCall.sendPhoto channel u (formatted_text username t) "HTML"] := by
  simp only [send_tweet_to_telegram, h]

/-- The foldl of `extract_media` collects, in order, the URLs of the
entries typed `photo`. -/
theorem extract_media_foldl_eq (ms : List MediaItem) (acc : List String) :
    ms.foldl (fun acc m => if m.mtype = "photo" then acc ++ [m.url] else acc) acc
      = acc ++ (ms.filter fun m => decide (m.mtype = "photo")).map MediaItem.url := by
  induction ms generalizing acc with
  | nil => simp
  | cons m ms ih =>
    by_cases h : m.mtype = "photo" <;>
      simp [List.foldl_cons, List.filter_cons, h, ih, List.append_assoc]

/-- Characterization of `extract_media` on any tweet. -/
theorem extract_media_eq_filter (t : Tweet) :
    extract_media t
      = ((t.includes_media.getD []).filter fun m => decide (m.mtype = "photo")).map
          MediaItem.url := by
  cases hm : t.includes_media with
  | none => simp [extract_media, hm]
  | some ms => simpa [extract_media, hm] using extract_media_foldl_eq ms []

/-- A tweet with no media key and no attachments. -/
def tweet_no_media : Tweet :=
  { id := "5", text := "plain", isReply := false, includes_media := none }

/-- A tweet whose only attachment is a video. -/
def tweet_video_only : Tweet :=
  { id := "6", text := "clip", isReply := false,
    includes_media := some [{ mtype := "video", url := "v1" }] }

/-- A tweet with two photo attachments. -/
def tweet_two_photos : Tweet :=
  { id := "2", text := "pair", isReply := false,
    includes_media := some [{ mtype := "photo", url := "u1" },
                            { mtype := "photo", url := "u2" }] }

/-- A tweet with exactly one photo attachment. -/
def tweet_one_photo : Tweet :=
  { id := "3", text := "pic", isReply := false,
    includes_media := some [{ mtype := "photo", url := "purl" }] }

/-- C8: a post with an empty attachment list yields exactly one text-send
whose body is the post text, a blank line, and a link containing the post
identifier. -/
theorem no_media_single_text_send (username channel : String) (t : Tweet)
    (h : t.includes_media = none ∨ t.includes_media = some []) :
    send_tweet_to_telegram username channel t
      = [SendCall.sendMessage channel (formatted_text username t) "HTML"]
    ∧ formatted_text username t = t.text ++ "\n\n" ++ link_to_source username t
    ∧ link_to_source username t
      = ("<a href=\x27" ++ "https://twitter.com/" ++ username ++ "/status/")
        ++ (t.id ++ "\x27>View on X</a>") := by
  have hm : extract_media t = [] := by
    rcases h with h | h <;> simp [extract_media, h]
  refine ⟨send_tweet_of_no_media username channel t hm, ?_, ?_⟩
  · have hlit : ("\n\n<a href=\x27" : String) = "\n\n" ++ "<a href=\x27" := rfl
    simp only [formatted_text, link_to_source, hlit, String.append_assoc]
  · simp only [link_to_source, tweet_url, String.append_assoc]

/-- Witness for C8 at a concrete no-media tweet. -/
theorem no_media_single_text_send_witness :
    send_tweet_to_telegram "alice" "chan" tweet_no_media
      = [SendCall.sendMessage "chan" (formatted_text "alice" tweet_no_media) "HTML"] :=
  (no_media_single_text_send "alice" "chan" tweet_no_media (Or.inl rfl)).1

/-- C10: `extract_media` returns exactly the URLs of the attachments
typed photo, in source order; a post whose attachments are all videos or
gifs extracts nothing and is delivered as a single text message. -/
theorem extract_media_photos_in_order (username channel : String) (t : Tweet) :
    extract_media t
      = ((t.includes_media.getD []).filter fun m => decide (m.mtype = "photo")).map
          MediaItem.url
    ∧ (((t.includes_media.getD []).all fun m => !decide (m.mtype = "photo")) = true →
        send_tweet_to_telegram username channel t
          = [SendCall.sendMessage channel (formatted_text username t) "HTML"]) := by
  refine ⟨extract_media_eq_filter t, fun hall => ?_⟩
  have h2 : (t.includes_media.getD []).filter (fun m => decide (m.mtype = "photo")) = [] := by
    rw [List.filter_eq_nil_iff]
    intro a ha
    have := List.all_eq_true.mp hall a ha
    simpa using this
  have h3 : extract_media t = [] := by
    rw [extract_media_eq_filter t, h2]; rfl
  exact send_tweet_of_no_media username channel t h3

/-- Witness for C10 at a concrete all-video tweet. -/
theorem extract_media_photos_in_order_witness :
    send_tweet_to_telegram "alice" "chan" tweet_video_only
      = [SendCall.sendMessage "chan" (formatted_text "alice" tweet_video_only) "HTML"] :=
  (extract_media_photos_in_order "alice" "chan" tweet_video_only).2 (by decide)

/-- C2 counterexample: for a post with two photo attachments the code
issues zero grouped-media sends; the one call it issues is a single-photo
send carrying one attachment, not two. -/
theorem two_photo_post_no_media_group_cex :
    (send_tweet_to_telegram "alice" "chan" tweet_two_photos).countP SendCall.isMediaGroup = 0
    ∧ (tweet_two_photos.includes_media.getD []).length = 2
    ∧ (send_tweet_to_telegram "alice" "chan" tweet_two_photos).map SendCall.attachmentCount
      = [1] := by
  refine ⟨?_, rfl, ?_⟩ <;> rfl

/-- C2 amended: for every post with at least one extracted photo URL the
renderer issues exactly one single-photo send carrying only the first
URL with the caption; no grouped send exists in the code. -/
theorem photo_post_single_photo_send (username channel : String) (t : Tweet)
    (u : String) (rest : List String) (h : extract_media t = u :: rest) :
    send_tweet_to_telegram username channel t
      = [SendCall.sendPhoto channel u (formatted_text username t) "HTML"] :=
  send_tweet_of_media username channel t u rest h

/-- Witness for the amended C2 at the two-photo tweet. -/
theorem photo_post_single_photo_send_witness :
    send_tweet_to_telegram "alice" "chan" tweet_two_photos
      = [SendCall.sendPhoto "chan" "u1" (formatted_text "alice" tweet_two_photos) "HTML"] :=
  photo_post_single_photo_send "alice" "chan" tweet_two_photos "u1" ["u2"] (by decide)

/-- C3 counterexample: for a post with exactly one photo attachment the
renderer hands the remote URL to the channel and issues zero text sends:
the code contains no media fetch, so no fetch outcome can produce the
text-only fallback the claim requires. -/
theorem one_photo_post_no_text_fallback_cex :
    (send_tweet_to_telegram "alice" "chan" tweet_one_photo).countP SendCall.isTextSend = 0
    ∧ send_tweet_to_telegram "alice" "chan" tweet_one_photo
      = [SendCall.sendPhoto "chan" "purl" (formatted_text "alice" tweet_one_photo) "HTML"] :=
  ⟨rfl, rfl⟩

/-- C3 amended: for every post with exactly one extracted photo URL the
renderer issues exactly one call, a photo send of the remote URL, and no
text send: there is no media fetch and no text-only fallback path. -/
theorem nonempty_media_no_text_send (username channel : String) (t : Tweet)
    (u : String) (h : extract_media t = [u]) :
    (send_tweet_to_telegram username channel t).countP SendCall.isTextSend = 0
    ∧ (send_tweet_to_telegram username channel t).length = 1 := by
  rw [send_tweet_of_media username channel t u [] h]
  constructor <;> rfl

/-- Witness for the amended C3 at the one-photo tweet. -/
theorem nonempty_media_no_text_send_witness :
    (send_tweet_to_telegram "bob" "chan" tweet_one_photo).countP SendCall.isTextSend = 0
    ∧ (send_tweet_to_telegram "bob" "chan" tweet_one_photo).length = 1 :=
  nonempty_media_no_text_send "bob" "chan" tweet_one_photo "purl" (by decide)

/-- The forwarding loop issues exactly the renderer output of the first
non-reply tweet, nothing when every tweet is a reply. -/
theorem forward_loop_eq_find (username channel : String) (ts : List Tweet) :
    forward_loop username channel ts
      = match ts.find? (fun t => !t.isReply) with
        | some t => send_tweet_to_telegram username channel t
        | none => [] := by
  induction ts with
  | nil => rfl
  | cons t ts ih =>
    cases h : t.isReply with
    | true => simpa [forward_loop, h, List.find?_cons] using ih
    | false => simp [forward_loop, h, List.find?_cons]

/-- The instrumented loop hands over exactly the first non-reply tweet. -/
theorem render_calls_eq_find (ts : List Tweet) :
    render_calls ts = (ts.find? fun t => !t.isReply).toList := by
  induction ts with
  | nil => rfl
  | cons t ts ih =>
    cases h : t.isReply with
    | true => simpa [render_calls, h, List.find?_cons] using ih
    | false => simp [render_calls, h, List.find?_cons]

/-- The scenario list of the spec: post 9 is a reply, posts 8 and 7 are
not, newest first. -/
def scenario_posts : List Tweet :=
  [ { id := "9", text := "t9", isReply := true, includes_media := none },
    { id := "8", text := "t8", isReply := false, includes_media := none },
    { id := "7", text := "t7", isReply := false, includes_media := none } ]

/-- C5: each iteration forwards exactly the first tweet of the
newest-first response whose reply flag is false, and nothing when none
qualifies; on the spec scenario the selected identifier is 8. -/
theorem watch_selects_first_nonreply (username channel : String) (ts : List Tweet) :
    (iteration_sends username channel (FetchResult.ok ts)
      = match ts.find? (fun t => !t.isReply) with
        | some t => send_tweet_to_telegram username channel t
        | none => [])
    ∧ (render_calls scenario_posts).map Tweet.id = ["8"] :=
  ⟨forward_loop_eq_find username channel ts, rfl⟩

/-- C6: a rate-limited iteration sleeps two full poll intervals (the
extra one from the except branch plus the normal tail sleep), issues no
sends, and the session goes on processing the remaining iterations. -/
theorem rate_limit_double_wait_continues (username channel : String)
    (rs : List FetchResult) :
    iteration_sleep FetchResult.rateLimited = 2 * POLL_INTERVAL
    ∧ watch_sends username channel (FetchResult.rateLimited :: rs)
      = watch_sends username channel rs
    ∧ watch_render_ids (FetchResult.rateLimited :: rs) = watch_render_ids rs := by
  refine ⟨rfl, ?_, rfl⟩
  simp [watch_sends, iteration_sends]

/-- A non-reply tweet with identifier 8, used as the newest post of two
consecutive polls. -/
def tweet_eight : Tweet :=
  { id := "8", text := "gm", isReply := false, includes_media := none }

/-- C1 counterexample: two consecutive polls both returning the same
non-reply tweet as newest make the loop hand tweet 8 to the renderer
twice: the code keeps no record of forwarded identifiers. -/
theorem watch_renders_same_id_twice_cex :
    List.count "8"
      (watch_render_ids [FetchResult.ok [tweet_eight], FetchResult.ok [tweet_eight]]) = 2 := by
  rfl

/-- C1 amended: the watch loop consults no dedup ledger; the number of
render calls for an identifier equals the number of iterations whose
first non-reply tweet carries that identifier, with no cap at one. -/
theorem watch_render_count_eq_selected_count (rs : List FetchResult) (x : String) :
    (watch_render_ids rs).countP (fun i => decide (i = x))
      = rs.countP (fun r => decide (selected_id r = some x)) := by
  induction rs with
  | nil => rfl
  | cons r rs ih =>
    cases r with
    | rateLimited =>
      simp [watch_render_ids, selected_id, List.countP_cons, ih]
    | ok ts =>
      rw [watch_render_ids, List.countP_append, ih, List.countP_cons]
      rw [render_calls_eq_find]
      cases h : ts.find? (fun t => !t.isReply) with
      | none => simp [selected_id, h]
      | some t =>
        by_cases hx : t.id = x <;> simp [selected_id, h, hx, Nat.add_comm]

/-- Modelled from the spec: the Dedup Ledger component is missing from
src/ (the spec consolidates three revisions of the pipeline and the
revision kept in src/main.py has no dedup code), so it is embedded from
the spec words: an ordered size-bounded list of identifiers, newest
first. -/
structure DedupLedger where
  capacity : Nat
  entries : List String
deriving DecidableEq, Repr

/-- Modelled from the spec: `seen` performs a linear membership check. -/
def DedupLedger.seen (l : DedupLedger) (i : String) : Bool :=
  l.entries.contains i

/-- Modelled from the spec: `record` inserts at the front and, when the
size exceeds the configured maximum, evicts from the back. -/
def DedupLedger.record (l : DedupLedger) (i : String) : DedupLedger :=
  { l with entries := (i :: l.entries).take l.capacity }

/-- Record a whole sequence of identifiers, oldest first. -/
def DedupLedger.recordAll (l : DedupLedger) (ids : List String) : DedupLedger :=
  ids.foldl DedupLedger.record l

/-- Taking n of an append whose right part is already truncated at n is
the same as taking n of the plain append. -/
theorem take_append_take (a b : List String) (n : Nat) :
    (a ++ b.take n).take n = (a ++ b).take n := by
  rw [List.take_append_eq_append_take, List.take_append_eq_append_take,
    List.take_take]
  have h : (n - a.length) ⊓ n = n - a.length := min_eq_left (Nat.sub_le _ _)
  rw [h]

/-- Closed form of `recordAll`: starting from a ledger whose entries fit
the capacity, the entries end up as the newest-first truncation of the
recorded sequence. -/
theorem recordAll_eq (n : Nat) (ids : List String) :
    ∀ es : List String, es.length ≤ n →
      DedupLedger.recordAll ⟨n, es⟩ ids = ⟨n, (ids.reverse ++ es).take n⟩ := by
  induction ids with
  | nil =>
    intro es hes
    simp [DedupLedger.recordAll, List.take_of_length_le hes]
  | cons x ids ih =>
    intro es hes
    have hstep : DedupLedger.recordAll ⟨n, es⟩ (x :: ids)
        = DedupLedger.recordAll ⟨n, (x :: es).take n⟩ ids := rfl
    rw [hstep, ih ((x :: es).take n) (by simp)]
    have : (ids.reverse ++ (x :: es).take n).take n = (ids.reverse ++ (x :: es)).take n :=
      take_append_take _ _ _
    rw [this]
    simp [List.reverse_cons, List.append_assoc]

/-- C4: when k distinct identifiers are recorded into an empty ledger of
capacity n, with k greater than n, `seen` answers false for every one of
the k minus n earliest and true for every one of the n most recent. -/
theorem dedup_ledger_fifo_eviction (n : Nat) (early recent : List String)
    (hlen : recent.length = n) (hnd : (early ++ recent).Nodup) :
    (∀ x ∈ early, (DedupLedger.recordAll ⟨n, []⟩ (early ++ recent)).seen x = false)
    ∧ (∀ x ∈ recent, (DedupLedger.recordAll ⟨n, []⟩ (early ++ recent)).seen x = true) := by
  have h := recordAll_eq n (early ++ recent) [] (by simp)
  have hentries : (DedupLedger.recordAll ⟨n, []⟩ (early ++ recent)).entries
      = recent.reverse := by
    rw [h]
    have hl : n = recent.reverse.length := by simp [hlen]
    simp only [List.append_nil, List.reverse_append]
    rw [hl, List.take_left]
  constructor
  · intro x hx
    have hxnot : x ∉ recent := by
      rcases List.nodup_append.mp hnd with ⟨-, -, hdisj⟩
      exact fun hr => hdisj hx hr
    have hxr : x ∉ recent.reverse := by simpa using hxnot
    simpa [DedupLedger.seen, hentries] using hxr
  · intro x hx
    have hxr : x ∈ recent.reverse := by simpa using hx
    simpa [DedupLedger.seen, hentries] using hxr

/-- Witness for C4: capacity 2, three distinct identifiers recorded; the
earliest is evicted, the two most recent are seen. -/
theorem dedup_ledger_fifo_eviction_witness :
    (DedupLedger.recordAll ⟨2, []⟩ (["a"] ++ ["b", "c"])).seen "a" = false
    ∧ (DedupLedger.recordAll ⟨2, []⟩ (["a"] ++ ["b", "c"])).seen "b" = true := by
  have h := dedup_ledger_fifo_eviction 2 ["a"] ["b", "c"] (by decide) (by decide)
  exact ⟨h.1 "a" (by decide), h.2 "b" (by decide)⟩

/-- State of the lazy singleton of `get_twitter_api` (src/main.py lines
42 to 60): the global client handle plus a counter of how many times an
`AsyncClient` construction has been attempted. -/
structure ApiState where
  client : Option Nat
  constructions : Nat
deriving DecidableEq, Repr

/-- Embeds `get_twitter_api`: when the global handle is set, return it
untouched; otherwise attempt one construction, whose outcome is supplied
by the environment as `build` (indexed by the attempt counter, `none`
standing for a `TweepyException`), store the client on success and return
`None` on failure. -/
def get_twitter_api (build : Nat → Option Nat) (s : ApiState) : ApiState × Option Nat :=
  match s.client with
  | some c => (s, some c)
  | none =>
    match build s.constructions with
    | some c => (⟨some c, s.constructions + 1⟩, some c)
    | none => (⟨none, s.constructions + 1⟩, none)

/-- Repeat `get_twitter_api` k times, collecting each returned handle. -/
def get_twitter_api_iter (build : Nat → Option Nat) : Nat → ApiState → ApiState × List (Option Nat)
  | 0, s => (s, [])
  | k + 1, s =>
    let p := get_twitter_api build s
    let q := get_twitter_api_iter build k p.1
    (q.1, p.2 :: q.2)

/-- C9: once the client handle is set, any number of further calls leaves
the state untouched (in particular the construction counter) and every
call returns the same client. -/
theorem get_twitter_api_idempotent (build : Nat → Option Nat) (s : ApiState) (c : Nat)
    (h : s.client = some c) (k : Nat) :
    get_twitter_api_iter build k s = (s, List.replicate k (some c)) := by
  induction k with
  | zero => rfl
  | succ k ih =>
    have h1 : get_twitter_api build s = (s, some c) := by
      simp [get_twitter_api, h]
    simp [get_twitter_api_iter, h1, ih, List.replicate_succ]

/-- Witness for C9: a state already holding client 42 is unchanged by
three further calls, each returning client 42. -/
theorem get_twitter_api_idempotent_witness :
    get_twitter_api_iter (fun _ => some 7) 3 ⟨some 42, 1⟩
      = (⟨some 42, 1⟩, List.replicate 3 (some 42)) :=
  get_twitter_api_idempotent (fun _ => some 7) ⟨some 42, 1⟩ 42 rfl 3

/-- Outcome of the single attempt of `get_twitter_user_id` to open and
parse user_id.json: the file is absent, the JSON is malformed, or it
parses and `data.get` yields the optional user_id value. -/
inductive FileRead where
  | missing
  | malformed
  | parsed (uid : Option String)
deriving DecidableEq, Repr

/-- Embeds `get_twitter_user_id` (src/main.py lines 32 to 39): one read
of user_id.json; both FileNotFoundError and JSONDecodeError are caught,
logged, and turned into None. The type shows the function consumes
exactly one read outcome: there is no retry, no backoff, no network
lookup. -/
def get_twitter_user_id : FileRead → Option String
  | .missing => none
  | .malformed => none
  | .parsed uid => uid

/-- Embeds `initialize_twitter` (lines 63 to 76): false when the API
client is unavailable, false when the user id is missing or falsy (the
empty string), true otherwise. -/
def init_twitter (api_ok : Bool) (f : FileRead) : Bool :=
  if api_ok = false then false
  else
    match get_twitter_user_id f with
    | none => false
    | some uid => if uid = "" then false else true

/-- What `main` (lines 193 to 202) establishes before blocking. -/
structure StartupResult where
  init_ok : Bool
  app_started : Bool
deriving DecidableEq, Repr

/-- Embeds `main`: it awaits `initialize_twitter`, discards the returned
flag, then builds the Telegram application, registers the handlers and
starts polling unconditionally. -/
def main_startup (api_ok : Bool) (f : FileRead) : StartupResult :=
  { init_ok := init_twitter api_ok f, app_started := true }

/-- C7 counterexample: with the cache file absent the single lookup
yields None immediately (no retries, no backoff, no exception), yet the
application still starts: startup continues with an unresolved account. -/
theorem startup_continues_after_resolution_failure_cex :
    get_twitter_user_id FileRead.missing = none
    ∧ init_twitter true FileRead.missing = false
    ∧ (main_startup true FileRead.missing).app_started = true :=
  ⟨rfl, rfl, rfl⟩

/-- C7 amended: identity resolution is a single local file read with no
retry; on any outcome, startup proceeds to launch the application, and
the discarded init flag is true exactly when the API client exists and
the file yields a non-empty identifier. -/
theorem startup_single_attempt_always_starts (api_ok : Bool) (f : FileRead) :
    (main_startup api_ok f).app_started = true
    ∧ (init_twitter api_ok f = true ↔
        api_ok = true ∧ ∃ uid, get_twitter_user_id f = some uid ∧ uid ≠ "") := by
  refine ⟨rfl, ?_⟩
  cases api_ok with
  | false => simp [init_twitter]
  | true =>
    cases f with
    | missing => simp [init_twitter, get_twitter_user_id]
    | malformed => simp [init_twitter, get_twitter_user_id]
    | parsed uid =>
      cases uid with
      | none => simp [init_twitter, get_twitter_user_id]
      | some u =>
        by_cases hu : u = "" <;> simp [init_twitter, get_twitter_user_id, hu]
